import Mathlib

/-!
Shallow embedding of the CEO access gate (src/src/components/ceo/CEOPinAuth.tsx):
PIN entry handling, PIN verification against a stored bcrypt hash, the
biometric (WebAuthn) registration/assertion flow, and the rendering condition
for the biometric option. Effects (audit updates, success-callback
invocations, console logging) are tracked explicitly.
-/

namespace CEOPinAuth

/-- Abstract model of a bcrypt hash: hashing is delegated to the bcryptjs
library, modelled ideally by remembering the plaintext the hash was
generated from. -/
structure Hash where
  source : String
deriving DecidableEq

/-- Model of bcrypt.compare(pinValue, hash): true exactly when the submitted
plaintext equals the plaintext the stored hash was generated from. -/
def bcryptCompare (pinValue : String) (h : Hash) : Bool :=
  pinValue == h.source

/-- UI state of the gate component that the PIN flow reads and writes:
the six-position pin array, the error message, the loading flag, and the
index of the focused input. -/
structure GateState where
  pin : List String
  error : String
  loading : Bool
  focus : Nat
deriving DecidableEq

/-- Result of the credential-store fetch in verifyPin: either no row for the
identifier (or a fetch error), or a row projecting the stored pin hash. -/
inductive FetchResult where
  | notFound : FetchResult
  | found : Hash → FetchResult
deriving DecidableEq

/-- External environment of one verifyPin call: the fetch result and the
result of the audit-field update call (which the code never inspects). -/
structure VerifyEnv where
  fetch : FetchResult
  auditOk : Bool
deriving DecidableEq

/-- Effects issued by one verifyPin call: number of audit-field update calls
issued and number of success-callback invocations scheduled. -/
structure Effects where
  auditUpdates : Nat
  successCalls : Nat
deriving DecidableEq

/-- The six empty pin positions, as set by setPin(['', '', '', '', '', '']). -/
def emptyPin : List String := ["", "", "", "", "", ""]

/-- Model of verifyPin: fetch the stored hash; if the fetch fails or returns
no row, set the error and stop; otherwise compare with bcrypt. On a match,
issue one audit update (its result is ignored) and schedule the success
callback; on a mismatch, set the error, clear the pin and refocus the first
input. Returns the new state, the effects, and the console-error log. -/
def verifyPin (env : VerifyEnv) (st : GateState) (pinValue : String) :
    GateState × Effects × List String :=
  let st0 : GateState := { st with loading := true, error := "" }
  match env.fetch with
  | FetchResult.notFound =>
      ({ st0 with error := "Access credentials not found", loading := false },
       { auditUpdates := 0, successCalls := 0 }, [])
  | FetchResult.found h =>
      if bcryptCompare pinValue h then
        ({ st0 with loading := false },
         { auditUpdates := 1, successCalls := 1 }, [])
      else
        ({ st0 with error := "Invalid PIN. Access Denied.", pin := emptyPin,
                    focus := 0, loading := false },
         { auditUpdates := 0, successCalls := 0 }, [])

/-- Test for the regex /^\d$/: exactly one character and it is a digit. -/
def isSingleDigit (s : String) : Bool :=
  match s.toList with
  | [c] => c.isDigit
  | _ => false

/-- Model of handlePinChange(index, value): reject values longer than one
character and non-digit non-empty values silently; otherwise store the value,
clear the error, advance focus when a digit was entered at positions 0..4,
and report whether a verification call is triggered (all six positions
non-empty and the edited index is 5). -/
def handlePinChange (st : GateState) (index : Nat) (value : String) :
    GateState × Nat :=
  if value.length > 1 then (st, 0)
  else if value != "" && !isSingleDigit value then (st, 0)
  else
    let newPin := st.pin.set index value
    let st1 : GateState := { st with pin := newPin, error := "" }
    let st2 : GateState :=
      if value != "" && decide (index < 5) then { st1 with focus := index + 1 }
      else st1
    if newPin.all (fun d => d != "") && index == 5 then (st2, 1) else (st2, 0)

/-- One whole entry session: the gate state plus the accumulated effects,
console log and count of verification calls issued. -/
structure Session where
  st : GateState
  fx : Effects
  log : List String
  verifyCalls : Nat
deriving DecidableEq

/-- Session state on mount: empty pin, no error, not loading, first input
focused, no effects issued yet. -/
def initSession : Session :=
  { st := { pin := emptyPin, error := "", loading := false, focus := 0 },
    fx := { auditUpdates := 0, successCalls := 0 }, log := [], verifyCalls := 0 }

/-- One pin-input event (index, value): run handlePinChange; when it triggers
verification, run verifyPin on the joined pin and accumulate its effects. -/
def stepPin (env : VerifyEnv) (s : Session) (ev : Nat × String) : Session :=
  let r := handlePinChange s.st ev.1 ev.2
  if r.2 == 1 then
    let out := verifyPin env r.1 (String.join r.1.pin)
    { st := out.1,
      fx := { auditUpdates := s.fx.auditUpdates + out.2.1.auditUpdates,
              successCalls := s.fx.successCalls + out.2.1.successCalls },
      log := s.log ++ out.2.2,
      verifyCalls := s.verifyCalls + 1 }
  else
    { s with st := r.1 }

/-- Run a list of pin-input events from the mounted state. -/
def runSession (env : VerifyEnv) (events : List (Nat × String)) : Session :=
  events.foldl (stepPin env) initSession

/-- Biometric columns of the credential record, as selected by
handleBiometricAuth; a missing value models a NULL column. -/
structure BioRecord where
  biometric_credential_id : Option String
  biometric_public_key : Option String
deriving DecidableEq

/-- A platform-created public-key credential: its id and the raw bytes of
the attestation object, each byte a value below 256. -/
structure Credential where
  id : String
  attestationObject : List Nat
deriving DecidableEq

/-- Outcome of navigator.credentials.create: a credential, a null result, or
a rejection (user cancellation, timeout, platform refusal). -/
inductive CeremonyOutcome where
  | ok : Credential → CeremonyOutcome
  | nullResult : CeremonyOutcome
  | thrown : CeremonyOutcome
deriving DecidableEq

/-- Outcome of navigator.credentials.get: a non-null assertion object, a
null result, or a rejection. -/
inductive AssertOutcome where
  | ok : AssertOutcome
  | nullResult : AssertOutcome
  | thrown : AssertOutcome
deriving DecidableEq

/-- Which ceremony handleBiometricAuth dispatches to. -/
inductive BioAction where
  | register : BioAction
  | assertion : String → BioAction
deriving DecidableEq

/-- JavaScript truthiness of credentials?.biometric_credential_id: the id is
kept when the fetch returned a row and the column is a non-empty string. -/
def credIdTruthy : Option BioRecord → Option String
  | none => none
  | some r =>
    match r.biometric_credential_id with
    | none => none
    | some s => if s == "" then none else some s

/-- Dispatch of handleBiometricAuth: register when no truthy credential id
is on file, otherwise run an assertion against the stored id. -/
def chooseBioAction (credentials : Option BioRecord) : BioAction :=
  match credIdTruthy credentials with
  | none => BioAction.register
  | some s => BioAction.assertion s

/-- The base64 alphabet used by btoa. -/
def b64Chars : List Char :=
  "ABCDEFGHIJKLMNOPQRSTUVWXYZabcdefghijklmnopqrstuvwxyz0123456789+/".toList

/-- The base64 character for a 6-bit value. -/
def b64Char (n : Nat) : Char := b64Chars.getD n 'A'

/-- Model of btoa(String.fromCharCode(...bytes)): standard base64 encoding
of a byte list, with '=' padding. -/
def btoa : List Nat → String
  | [] => ""
  | [a] =>
      String.mk [b64Char (a / 4), b64Char (a % 4 * 16), '=', '=']
  | [a, b] =>
      String.mk [b64Char (a / 4), b64Char (a % 4 * 16 + b / 16),
                 b64Char (b % 16 * 4), '=']
  | a :: b :: c :: rest =>
      String.mk [b64Char (a / 4), b64Char (a % 4 * 16 + b / 16),
                 b64Char (b % 16 * 4 + c / 64), b64Char (c % 64)] ++ btoa rest

/-- Update-by-identifier of the biometric columns: when a row exists it is
overwritten, when no row exists the update matches nothing. -/
def updateBiometricFields (db : Option BioRecord) (credId pk : String) :
    Option BioRecord :=
  db.map (fun r => { r with biometric_credential_id := some credId,
                            biometric_public_key := some pk })

/-- Model of registerBiometric: on a created credential, persist its id and
the base64 of its attestation object and schedule the success callback; on a
null result do nothing; on a rejection set the registration error. Returns
the row after the flow, the error message, and the number of
success-callback invocations. -/
def registerBiometric (db : Option BioRecord) (outcome : CeremonyOutcome) :
    Option BioRecord × String × Nat :=
  match outcome with
  | CeremonyOutcome.ok c =>
      (updateBiometricFields db c.id (btoa c.attestationObject), "", 1)
  | CeremonyOutcome.nullResult => (db, "", 0)
  | CeremonyOutcome.thrown => (db, "Failed to register biometric", 0)

/-- Model of authenticateBiometric: a non-null assertion schedules the
success callback; a null result does nothing; a rejection sets the
verification error. Returns the error message and the number of
success-callback invocations. -/
def authenticateBiometric (outcome : AssertOutcome) : String × Nat :=
  match outcome with
  | AssertOutcome.ok => ("", 1)
  | AssertOutcome.nullResult => ("", 0)
  | AssertOutcome.thrown => ("Biometric verification failed", 0)

/-- Observable result of one handleBiometricAuth flow: the ceremony
dispatched to, the credential row afterwards, the error message, and the
number of success-callback invocations. -/
structure BioFlowResult where
  action : BioAction
  db : Option BioRecord
  error : String
  successCalls : Nat
deriving DecidableEq

/-- Model of handleBiometricAuth: fetch the biometric columns; with no
truthy stored credential id run registration, otherwise run an assertion
against the stored id (the stored public key is fetched but never read). -/
def handleBiometricAuth (credentials : Option BioRecord)
    (reg : CeremonyOutcome) (asrt : AssertOutcome) : BioFlowResult :=
  match chooseBioAction credentials with
  | BioAction.register =>
      let r := registerBiometric credentials reg
      { action := BioAction.register, db := r.1, error := r.2.1,
        successCalls := r.2.2 }
  | BioAction.assertion credId =>
      let r := authenticateBiometric asrt
      { action := BioAction.assertion credId, db := credentials,
        error := r.1, successCalls := r.2 }

/-- Model of checkBiometricAvailability: when window.PublicKeyCredential is
present the availability state is set to the probe result, otherwise the
previous state (false on mount) is kept. -/
def checkBiometricAvailability (apiPresent probe prev : Bool) : Bool :=
  if apiPresent then probe else prev

/-- Availability state after the mount effect, starting from the initial
false. -/
def biometricAvailableAfterMount (apiPresent probe : Bool) : Bool :=
  checkBiometricAvailability apiPresent probe false

/-- Rendering condition of the biometric option block: it depends only on
the biometricAvailable state; the credential row is not consulted. -/
def biometricOptionRendered (biometricAvailable : Bool) (_stored : BioRecord) :
    Bool :=
  biometricAvailable

end CEOPinAuth

namespace CEOPinAuth

/-- Claim C1: with the stored hash generated from "123456", submitting
"123456" yields Granted (success callback scheduled, no error) with exactly
one audit update issued, and submitting "000000" yields Denied with the
entry cleared and no audit update issued. -/
theorem claim_C1_pin_scenario :
    ((verifyPin { fetch := FetchResult.found { source := "123456" }, auditOk := true }
        { pin := ["1", "2", "3", "4", "5", "6"], error := "", loading := false, focus := 5 }
        "123456").2.1.auditUpdates = 1 ∧
     (verifyPin { fetch := FetchResult.found { source := "123456" }, auditOk := true }
        { pin := ["1", "2", "3", "4", "5", "6"], error := "", loading := false, focus := 5 }
        "123456").2.1.successCalls = 1 ∧
     (verifyPin { fetch := FetchResult.found { source := "123456" }, auditOk := true }
        { pin := ["1", "2", "3", "4", "5", "6"], error := "", loading := false, focus := 5 }
        "123456").1.error = "") ∧
    ((verifyPin { fetch := FetchResult.found { source := "123456" }, auditOk := true }
        { pin := ["0", "0", "0", "0", "0", "0"], error := "", loading := false, focus := 5 }
        "000000").2.1.auditUpdates = 0 ∧
     (verifyPin { fetch := FetchResult.found { source := "123456" }, auditOk := true }
        { pin := ["0", "0", "0", "0", "0", "0"], error := "", loading := false, focus := 5 }
        "000000").2.1.successCalls = 0 ∧
     (verifyPin { fetch := FetchResult.found { source := "123456" }, auditOk := true }
        { pin := ["0", "0", "0", "0", "0", "0"], error := "", loading := false, focus := 5 }
        "000000").1.error = "Invalid PIN. Access Denied." ∧
     (verifyPin { fetch := FetchResult.found { source := "123456" }, auditOk := true }
        { pin := ["0", "0", "0", "0", "0", "0"], error := "", loading := false, focus := 5 }
        "000000").1.pin = emptyPin) := by
  decide

/-- Claim C2 counterexample: submitting "000000" when no credential record
exists and submitting it when the stored hash was generated from "123456"
surface different error messages, so the two runs are distinguishable. -/
theorem claim_C2_counterexample :
    (verifyPin { fetch := FetchResult.notFound, auditOk := true }
        { pin := ["0", "0", "0", "0", "0", "0"], error := "", loading := false, focus := 5 }
        "000000").1.error ≠
    (verifyPin { fetch := FetchResult.found { source := "123456" }, auditOk := true }
        { pin := ["0", "0", "0", "0", "0", "0"], error := "", loading := false, focus := 5 }
        "000000").1.error := by
  decide

/-- Claim C2 amended: the two failure modes are always distinguishable: a
missing credential record surfaces "Access credentials not found" and leaves
the entry intact, while a hash mismatch surfaces "Invalid PIN. Access
Denied." and clears the entry, so the visible output reveals whether the
account record exists. -/
theorem claim_C2_amended (b : Bool) (st : GateState) (pinValue : String)
    (h : Hash) (hmiss : bcryptCompare pinValue h = false) :
    (verifyPin { fetch := FetchResult.notFound, auditOk := b } st pinValue).1.error
      = "Access credentials not found" ∧
    (verifyPin { fetch := FetchResult.found h, auditOk := b } st pinValue).1.error
      = "Invalid PIN. Access Denied." ∧
    (verifyPin { fetch := FetchResult.notFound, auditOk := b } st pinValue).1.pin
      = st.pin ∧
    (verifyPin { fetch := FetchResult.found h, auditOk := b } st pinValue).1.pin
      = emptyPin := by
  simp [verifyPin, hmiss]

/-- Claim C2 amended, witness at a concrete input. -/
theorem claim_C2_amended_witness :
    (verifyPin { fetch := FetchResult.notFound, auditOk := true }
        { pin := ["0", "0", "0", "0", "0", "0"], error := "", loading := false, focus := 5 }
        "000000").1.error = "Access credentials not found" ∧
    (verifyPin { fetch := FetchResult.found { source := "123456" }, auditOk := true }
        { pin := ["0", "0", "0", "0", "0", "0"], error := "", loading := false, focus := 5 }
        "000000").1.error = "Invalid PIN. Access Denied." ∧
    (verifyPin { fetch := FetchResult.notFound, auditOk := true }
        { pin := ["0", "0", "0", "0", "0", "0"], error := "", loading := false, focus := 5 }
        "000000").1.pin =
      ({ pin := ["0", "0", "0", "0", "0", "0"], error := "", loading := false,
         focus := 5 } : GateState).pin ∧
    (verifyPin { fetch := FetchResult.found { source := "123456" }, auditOk := true }
        { pin := ["0", "0", "0", "0", "0", "0"], error := "", loading := false, focus := 5 }
        "000000").1.pin = emptyPin :=
  claim_C2_amended true
    { pin := ["0", "0", "0", "0", "0", "0"], error := "", loading := false, focus := 5 }
    "000000" { source := "123456" } (by decide)

/-- Claim C3 counterexample: a successful verification leaves the six
entered digits in the pin state, so the entry is not cleared on success. -/
theorem claim_C3_counterexample :
    (verifyPin { fetch := FetchResult.found { source := "123456" }, auditOk := true }
        { pin := ["1", "2", "3", "4", "5", "6"], error := "", loading := false, focus := 5 }
        "123456").1.pin ≠ emptyPin := by
  decide

/-- Claim C3 amended: the entry is cleared and focus returned to the first
position only on a hash mismatch; on a successful match and on a missing
credential record the pin entry and the focus are left unchanged. -/
theorem claim_C3_amended (b : Bool) (st : GateState) (pinValue : String)
    (h : Hash) (hmiss : bcryptCompare pinValue h = false) :
    ((verifyPin { fetch := FetchResult.found h, auditOk := b } st pinValue).1.pin
        = emptyPin ∧
     (verifyPin { fetch := FetchResult.found h, auditOk := b } st pinValue).1.focus
        = 0) ∧
    (∀ h2 : Hash, bcryptCompare pinValue h2 = true →
      (verifyPin { fetch := FetchResult.found h2, auditOk := b } st pinValue).1.pin
          = st.pin ∧
      (verifyPin { fetch := FetchResult.found h2, auditOk := b } st pinValue).1.focus
          = st.focus) ∧
    ((verifyPin { fetch := FetchResult.notFound, auditOk := b } st pinValue).1.pin
        = st.pin ∧
     (verifyPin { fetch := FetchResult.notFound, auditOk := b } st pinValue).1.focus
        = st.focus) := by
  refine ⟨by simp [verifyPin, hmiss], ?_, by simp [verifyPin]⟩
  intro h2 hm
  simp [verifyPin, hm]

/-- Claim C3 amended, witness at a concrete input. -/
theorem claim_C3_amended_witness :
    ((verifyPin { fetch := FetchResult.found { source := "123456" }, auditOk := true }
        { pin := ["0", "0", "0", "0", "0", "0"], error := "", loading := false, focus := 5 }
        "000000").1.pin = emptyPin ∧
     (verifyPin { fetch := FetchResult.found { source := "123456" }, auditOk := true }
        { pin := ["0", "0", "0", "0", "0", "0"], error := "", loading := false, focus := 5 }
        "000000").1.focus = 0) ∧
    (∀ h2 : Hash, bcryptCompare "000000" h2 = true →
      (verifyPin { fetch := FetchResult.found h2, auditOk := true }
          { pin := ["0", "0", "0", "0", "0", "0"], error := "", loading := false, focus := 5 }
          "000000").1.pin =
        ({ pin := ["0", "0", "0", "0", "0", "0"], error := "", loading := false,
           focus := 5 } : GateState).pin ∧
      (verifyPin { fetch := FetchResult.found h2, auditOk := true }
          { pin := ["0", "0", "0", "0", "0", "0"], error := "", loading := false, focus := 5 }
          "000000").1.focus =
        ({ pin := ["0", "0", "0", "0", "0", "0"], error := "", loading := false,
           focus := 5 } : GateState).focus) ∧
    ((verifyPin { fetch := FetchResult.notFound, auditOk := true }
        { pin := ["0", "0", "0", "0", "0", "0"], error := "", loading := false, focus := 5 }
        "000000").1.pin =
      ({ pin := ["0", "0", "0", "0", "0", "0"], error := "", loading := false,
         focus := 5 } : GateState).pin ∧
     (verifyPin { fetch := FetchResult.notFound, auditOk := true }
        { pin := ["0", "0", "0", "0", "0", "0"], error := "", loading := false, focus := 5 }
        "000000").1.focus =
      ({ pin := ["0", "0", "0", "0", "0", "0"], error := "", loading := false,
         focus := 5 } : GateState).focus) :=
  claim_C3_amended true
    { pin := ["0", "0", "0", "0", "0", "0"], error := "", loading := false, focus := 5 }
    "000000" { source := "123456" } (by decide)

/-- Claim C4 counterexample: filling the sixth position first and then
positions one to five leaves all six positions filled, yet zero
verification calls have been issued for the fully-completed sequence. -/
theorem claim_C4_counterexample :
    (runSession { fetch := FetchResult.found { source := "123456" }, auditOk := true }
        [(5, "6"), (0, "1"), (1, "2"), (2, "3"), (3, "4"), (4, "5")]).verifyCalls = 0 ∧
    (runSession { fetch := FetchResult.found { source := "123456" }, auditOk := true }
        [(5, "6"), (0, "1"), (1, "2"), (2, "3"), (3, "4"), (4, "5")]).st.pin.all
      (fun d => d != "") = true := by
  decide

/-- Claim C4 amended: a verification call is issued only when all six
positions are filled and the edited position is the sixth, each event issues
at most one call, and filling the six positions in order issues exactly one
call; a sequence completed at any other position issues none at the
completing event. -/
theorem claim_C4_amended :
    (∀ (st : GateState) (index : Nat) (value : String),
      (handlePinChange st index value).2 = 1 →
        (st.pin.set index value).all (fun d => d != "") = true ∧ index = 5) ∧
    (∀ (st : GateState) (index : Nat) (value : String),
      (handlePinChange st index value).2 ≤ 1) ∧
    (runSession { fetch := FetchResult.found { source := "123456" }, auditOk := true }
        [(0, "1"), (1, "2"), (2, "3"), (3, "4"), (4, "5"), (5, "6")]).verifyCalls = 1 := by
  refine ⟨?_, ?_, by decide⟩
  · intro st index value hcall
    simp only [handlePinChange] at hcall
    split at hcall
    · simp at hcall
    · split at hcall
      · simp at hcall
      · split at hcall
        · rename_i hcond
          simp only [Bool.and_eq_true, beq_iff_eq] at hcond
          exact ⟨hcond.1, hcond.2⟩
        · simp at hcall
  · intro st index value
    simp only [handlePinChange]
    split
    · simp
    · split
      · simp
      · split <;> simp

/-- Claim C4 amended, witness at a concrete input. -/
theorem claim_C4_amended_witness :
    (({ pin := ["1", "2", "3", "4", "5", ""], error := "", loading := false,
        focus := 5 } : GateState).pin.set 5 "6").all (fun d => d != "") = true ∧
    (5 : Nat) = 5 :=
  claim_C4_amended.1
    { pin := ["1", "2", "3", "4", "5", ""], error := "", loading := false, focus := 5 }
    5 "6" (by decide)

/-- Claim C5 counterexample: with the stored hash generated from "123456",
entering the six digits grants access and invokes the success callback once;
the further events of clearing the sixth position and retyping its digit
trigger a second verification and a second callback invocation, so Granted
is not terminal for the session. -/
theorem claim_C5_counterexample :
    (runSession { fetch := FetchResult.found { source := "123456" }, auditOk := true }
        [(0, "1"), (1, "2"), (2, "3"), (3, "4"), (4, "5"), (5, "6")]).fx.successCalls = 1 ∧
    (runSession { fetch := FetchResult.found { source := "123456" }, auditOk := true }
        [(0, "1"), (1, "2"), (2, "3"), (3, "4"), (4, "5"), (5, "6"),
         (5, ""), (5, "6")]).fx.successCalls = 2 := by
  decide

/-- Claim C5 amended: each successful verification schedules the success
callback exactly once, but the gate does not enforce terminality: after a
grant the component state stays interactive (loading is false, no error, pin
left filled), so further user events can trigger another grant; exactly-once
per session relies on the caller tearing the component down. -/
theorem claim_C5_amended (b : Bool) (st : GateState) (pinValue : String)
    (h : Hash) (hm : bcryptCompare pinValue h = true) :
    (verifyPin { fetch := FetchResult.found h, auditOk := b } st pinValue).2.1.successCalls
      = 1 ∧
    (verifyPin { fetch := FetchResult.found h, auditOk := b } st pinValue).1.loading
      = false ∧
    (verifyPin { fetch := FetchResult.found h, auditOk := b } st pinValue).1.error
      = "" ∧
    (verifyPin { fetch := FetchResult.found h, auditOk := b } st pinValue).1.pin
      = st.pin := by
  simp [verifyPin, hm]

/-- Claim C5 amended, witness at a concrete input. -/
theorem claim_C5_amended_witness :
    (verifyPin { fetch := FetchResult.found { source := "123456" }, auditOk := true }
        { pin := ["1", "2", "3", "4", "5", "6"], error := "", loading := false, focus := 5 }
        "123456").2.1.successCalls = 1 ∧
    (verifyPin { fetch := FetchResult.found { source := "123456" }, auditOk := true }
        { pin := ["1", "2", "3", "4", "5", "6"], error := "", loading := false, focus := 5 }
        "123456").1.loading = false ∧
    (verifyPin { fetch := FetchResult.found { source := "123456" }, auditOk := true }
        { pin := ["1", "2", "3", "4", "5", "6"], error := "", loading := false, focus := 5 }
        "123456").1.error = "" ∧
    (verifyPin { fetch := FetchResult.found { source := "123456" }, auditOk := true }
        { pin := ["1", "2", "3", "4", "5", "6"], error := "", loading := false, focus := 5 }
        "123456").1.pin =
      ({ pin := ["1", "2", "3", "4", "5", "6"], error := "", loading := false,
         focus := 5 } : GateState).pin :=
  claim_C5_amended true
    { pin := ["1", "2", "3", "4", "5", "6"], error := "", loading := false, focus := 5 }
    "123456" { source := "123456" } (by decide)

/-- Claim C6 counterexample: on a successful verification whose audit-field
update fails, the console log is empty, so the audit-write failure is not
logged (while the success callback is still invoked). -/
theorem claim_C6_counterexample :
    (verifyPin { fetch := FetchResult.found { source := "123456" }, auditOk := false }
        { pin := ["1", "2", "3", "4", "5", "6"], error := "", loading := false, focus := 5 }
        "123456").2.2 = ([] : List String) ∧
    (verifyPin { fetch := FetchResult.found { source := "123456" }, auditOk := false }
        { pin := ["1", "2", "3", "4", "5", "6"], error := "", loading := false, focus := 5 }
        "123456").2.1.successCalls = 1 := by
  decide

/-- Claim C6 amended: the result of the audit-field update is ignored
entirely: a failed update is never surfaced (no error) and never blocks
success (the callback is still invoked, and the whole outcome is identical
to a successful update), but it is not logged either. -/
theorem claim_C6_amended (st : GateState) (pinValue : String) (h : Hash)
    (hm : bcryptCompare pinValue h = true) :
    verifyPin { fetch := FetchResult.found h, auditOk := false } st pinValue
      = verifyPin { fetch := FetchResult.found h, auditOk := true } st pinValue ∧
    (verifyPin { fetch := FetchResult.found h, auditOk := false } st pinValue).2.1.successCalls
      = 1 ∧
    (verifyPin { fetch := FetchResult.found h, auditOk := false } st pinValue).1.error
      = "" ∧
    (verifyPin { fetch := FetchResult.found h, auditOk := false } st pinValue).2.2
      = ([] : List String) := by
  simp [verifyPin, hm]

/-- Claim C6 amended, witness at a concrete input. -/
theorem claim_C6_amended_witness :
    verifyPin { fetch := FetchResult.found { source := "123456" }, auditOk := false }
        { pin := ["1", "2", "3", "4", "5", "6"], error := "", loading := false, focus := 5 }
        "123456"
      = verifyPin { fetch := FetchResult.found { source := "123456" }, auditOk := true }
        { pin := ["1", "2", "3", "4", "5", "6"], error := "", loading := false, focus := 5 }
        "123456" ∧
    (verifyPin { fetch := FetchResult.found { source := "123456" }, auditOk := false }
        { pin := ["1", "2", "3", "4", "5", "6"], error := "", loading := false, focus := 5 }
        "123456").2.1.successCalls = 1 ∧
    (verifyPin { fetch := FetchResult.found { source := "123456" }, auditOk := false }
        { pin := ["1", "2", "3", "4", "5", "6"], error := "", loading := false, focus := 5 }
        "123456").1.error = "" ∧
    (verifyPin { fetch := FetchResult.found { source := "123456" }, auditOk := false }
        { pin := ["1", "2", "3", "4", "5", "6"], error := "", loading := false, focus := 5 }
        "123456").2.2 = ([] : List String) :=
  claim_C6_amended
    { pin := ["1", "2", "3", "4", "5", "6"], error := "", loading := false, focus := 5 }
    "123456" { source := "123456" } (by decide)

/-- Helper: a base64 encoding of a non-empty byte list has positive length. -/
theorem btoa_length_pos : ∀ (bytes : List Nat), bytes ≠ [] → 0 < (btoa bytes).length
  | [], h => absurd rfl h
  | [_], _ => by simp [btoa]
  | [_, _], _ => by simp [btoa]
  | _ :: _ :: _ :: rest, _ => by
      simp only [btoa, String.length_append, String.length_mk, List.length_cons,
        List.length_nil]
      omega

/-- Helper: a base64 encoding of a non-empty byte list is a non-empty
string. -/
theorem btoa_ne_empty (bytes : List Nat) (h : bytes ≠ []) : btoa bytes ≠ "" := by
  intro hc
  have hp := btoa_length_pos bytes h
  rw [hc] at hp
  simp at hp

/-- Claim C7: whenever the capability probe returns false or the platform
authenticator API is absent, the biometric option is not rendered, whatever
the stored biometric columns hold. -/
theorem claim_C7_biometric_hidden (apiPresent probe : Bool) (stored : BioRecord)
    (h : apiPresent = false ∨ probe = false) :
    biometricOptionRendered (biometricAvailableAfterMount apiPresent probe) stored
      = false := by
  rcases h with h | h <;>
    simp [biometricOptionRendered, biometricAvailableAfterMount,
          checkBiometricAvailability, h]

/-- Claim C7, witness at a concrete input. -/
theorem claim_C7_biometric_hidden_witness :
    biometricOptionRendered (biometricAvailableAfterMount true false)
      { biometric_credential_id := some "cred-1",
        biometric_public_key := some "key-1" } = false :=
  claim_C7_biometric_hidden true false
    { biometric_credential_id := some "cred-1", biometric_public_key := some "key-1" }
    (Or.inr rfl)

/-- Claim C8: with a non-empty credential id on file the flow always runs an
assertion against that id and never a registration; with no truthy id on
file it runs a registration, and when the ceremony succeeds with a
well-formed credential (non-empty id, non-empty attestation bytes) the
stored credential id and stored public key are both non-empty afterwards. -/
theorem claim_C8_ceremony_dispatch (r : BioRecord) (cid : String)
    (hcid : r.biometric_credential_id = some cid) (hne : cid ≠ "")
    (r2 : BioRecord)
    (h2 : r2.biometric_credential_id = none ∨ r2.biometric_credential_id = some "")
    (c : Credential) (asrt : AssertOutcome)
    (hid : c.id ≠ "") (hobj : c.attestationObject ≠ []) :
    (∀ reg : CeremonyOutcome,
      (handleBiometricAuth (some r) reg asrt).action = BioAction.assertion cid) ∧
    (handleBiometricAuth (some r2) (CeremonyOutcome.ok c) asrt).action
      = BioAction.register ∧
    (handleBiometricAuth (some r2) (CeremonyOutcome.ok c) asrt).db
      = some { r2 with biometric_credential_id := some c.id,
                       biometric_public_key := some (btoa c.attestationObject) } ∧
    c.id ≠ "" ∧ btoa c.attestationObject ≠ "" := by
  refine ⟨?_, ?_, ?_, hid, btoa_ne_empty c.attestationObject hobj⟩
  · intro reg
    simp [handleBiometricAuth, chooseBioAction, credIdTruthy, hcid, hne]
  · rcases h2 with h2 | h2 <;>
      simp [handleBiometricAuth, chooseBioAction, credIdTruthy, h2,
            registerBiometric, updateBiometricFields]
  · rcases h2 with h2 | h2 <;>
      simp [handleBiometricAuth, chooseBioAction, credIdTruthy, h2,
            registerBiometric, updateBiometricFields]

/-- Claim C8, witness at a concrete input. -/
theorem claim_C8_ceremony_dispatch_witness :
    (∀ reg : CeremonyOutcome,
      (handleBiometricAuth
        (some { biometric_credential_id := some "cred-1",
                biometric_public_key := some "key-1" })
        reg AssertOutcome.ok).action = BioAction.assertion "cred-1") ∧
    (handleBiometricAuth
        (some { biometric_credential_id := none, biometric_public_key := none })
        (CeremonyOutcome.ok { id := "cred-2", attestationObject := [1, 2, 3] })
        AssertOutcome.ok).action = BioAction.register ∧
    (handleBiometricAuth
        (some { biometric_credential_id := none, biometric_public_key := none })
        (CeremonyOutcome.ok { id := "cred-2", attestationObject := [1, 2, 3] })
        AssertOutcome.ok).db
      = some { ({ biometric_credential_id := none,
                  biometric_public_key := none } : BioRecord) with
               biometric_credential_id :=
                 some ({ id := "cred-2", attestationObject := [1, 2, 3] } : Credential).id,
               biometric_public_key :=
                 some (btoa ({ id := "cred-2",
                               attestationObject := [1, 2, 3] } : Credential).attestationObject) } ∧
    ({ id := "cred-2", attestationObject := [1, 2, 3] } : Credential).id ≠ "" ∧
    btoa ({ id := "cred-2", attestationObject := [1, 2, 3] } : Credential).attestationObject
      ≠ "" :=
  claim_C8_ceremony_dispatch
    { biometric_credential_id := some "cred-1", biometric_public_key := some "key-1" }
    "cred-1" rfl (by decide)
    { biometric_credential_id := none, biometric_public_key := none }
    (Or.inl rfl)
    { id := "cred-2", attestationObject := [1, 2, 3] }
    AssertOutcome.ok (by decide) (by decide)

/-- Claim C9 counterexample: an accepted digit entered at the sixth position
is stored but focus does not advance to a next position: it stays where it
was rather than becoming index six. -/
theorem claim_C9_counterexample :
    (handlePinChange
        { pin := ["1", "2", "3", "4", "5", ""], error := "", loading := false, focus := 5 }
        5 "6").1.pin = ["1", "2", "3", "4", "5", "6"] ∧
    (handlePinChange
        { pin := ["1", "2", "3", "4", "5", ""], error := "", loading := false, focus := 5 }
        5 "6").1.focus ≠ 5 + 1 := by
  decide

/-- Helper: a value accepted by the single-digit test has length one. -/
theorem isSingleDigit_length (value : String) (h : isSingleDigit value = true) :
    value.length = 1 := by
  obtain ⟨data⟩ := value
  match data, h with
  | [c], _ => rfl
  | [], h => exact Bool.noConfusion h
  | c :: d :: rest, h => exact Bool.noConfusion h

/-- Claim C9 amended: a value longer than one character or a non-empty
non-digit value is rejected silently, leaving the whole state (and hence the
position value and the error) unchanged; an accepted single digit is stored
with the error cleared, focus auto-advances to the next position when the
digit is entered at one of the first five positions, and at the sixth
position focus is left unchanged. -/
theorem claim_C9_amended (st : GateState) (index : Nat) (value : String) :
    (value.length > 1 → handlePinChange st index value = (st, 0)) ∧
    (value ≠ "" → isSingleDigit value = false →
      handlePinChange st index value = (st, 0)) ∧
    (isSingleDigit value = true →
      (handlePinChange st index value).1.pin = st.pin.set index value ∧
      (handlePinChange st index value).1.error = "" ∧
      (index < 5 → (handlePinChange st index value).1.focus = index + 1) ∧
      (5 ≤ index → (handlePinChange st index value).1.focus = st.focus)) := by
  refine ⟨?_, ?_, ?_⟩
  · intro h1
    simp [handlePinChange, h1]
  · intro h2 h3
    by_cases hl : value.length > 1
    · simp [handlePinChange, hl]
    · simp [handlePinChange, hl, h2, h3]
  · intro hd
    have hv : value ≠ "" := by
      intro he
      rw [he] at hd
      exact absurd hd (by decide)
    have hl1 : value.length = 1 := isSingleDigit_length value hd
    have hl : ¬ value.length > 1 := by omega
    refine ⟨?_, ?_, ?_, ?_⟩
    · simp [handlePinChange, hl, hd, hv]
      split <;> split <;> simp
    · simp [handlePinChange, hl, hd, hv]
      split <;> split <;> simp
    · intro hlt
      simp [handlePinChange, hl, hd, hv, hlt]
      split <;> simp
    · intro hge
      have hnlt : ¬ index < 5 := by omega
      simp [handlePinChange, hl, hd, hv, hnlt]
      split <;> simp

/-- Claim C9 amended, witness at a concrete input. -/
theorem claim_C9_amended_witness :
    (("66" : String).length > 1 →
      handlePinChange
        { pin := ["1", "2", "3", "4", "5", ""], error := "", loading := false, focus := 5 }
        5 "66" =
      ({ pin := ["1", "2", "3", "4", "5", ""], error := "", loading := false,
         focus := 5 }, 0)) ∧
    (("66" : String) ≠ "" → isSingleDigit "66" = false →
      handlePinChange
        { pin := ["1", "2", "3", "4", "5", ""], error := "", loading := false, focus := 5 }
        5 "66" =
      ({ pin := ["1", "2", "3", "4", "5", ""], error := "", loading := false,
         focus := 5 }, 0)) ∧
    (isSingleDigit "66" = true →
      (handlePinChange
        { pin := ["1", "2", "3", "4", "5", ""], error := "", loading := false, focus := 5 }
        5 "66").1.pin =
        ({ pin := ["1", "2", "3", "4", "5", ""], error := "", loading := false,
           focus := 5 } : GateState).pin.set 5 "66" ∧
      (handlePinChange
        { pin := ["1", "2", "3", "4", "5", ""], error := "", loading := false, focus := 5 }
        5 "66").1.error = "" ∧
      ((5 : Nat) < 5 →
        (handlePinChange
          { pin := ["1", "2", "3", "4", "5", ""], error := "", loading := false, focus := 5 }
          5 "66").1.focus = 5 + 1) ∧
      ((5 : Nat) ≤ 5 →
        (handlePinChange
          { pin := ["1", "2", "3", "4", "5", ""], error := "", loading := false, focus := 5 }
          5 "66").1.focus =
          ({ pin := ["1", "2", "3", "4", "5", ""], error := "", loading := false,
             focus := 5 } : GateState).focus)) :=
  claim_C9_amended
    { pin := ["1", "2", "3", "4", "5", ""], error := "", loading := false, focus := 5 }
    5 "66"

/-- Claim C10: in the assertion path the stored biometric public key is dead
data: for any two credential rows differing only in that column the
dispatched action, the surfaced error and the success-callback count are
identical, and the row is not written at all (it keeps its input value). -/
theorem claim_C10_public_key_unused (r : BioRecord) (pk1 pk2 : Option String)
    (cid : String) (hcid : r.biometric_credential_id = some cid) (hne : cid ≠ "")
    (reg : CeremonyOutcome) (asrt : AssertOutcome) :
    (handleBiometricAuth (some { r with biometric_public_key := pk1 }) reg asrt).action
      = (handleBiometricAuth (some { r with biometric_public_key := pk2 }) reg asrt).action ∧
    (handleBiometricAuth (some { r with biometric_public_key := pk1 }) reg asrt).error
      = (handleBiometricAuth (some { r with biometric_public_key := pk2 }) reg asrt).error ∧
    (handleBiometricAuth (some { r with biometric_public_key := pk1 }) reg asrt).successCalls
      = (handleBiometricAuth (some { r with biometric_public_key := pk2 }) reg asrt).successCalls ∧
    (handleBiometricAuth (some { r with biometric_public_key := pk1 }) reg asrt).db
      = some { r with biometric_public_key := pk1 } := by
  simp [handleBiometricAuth, chooseBioAction, credIdTruthy, hcid, hne]

/-- Claim C10, witness at a concrete input. -/
theorem claim_C10_public_key_unused_witness :
    (handleBiometricAuth
        (some { ({ biometric_credential_id := some "cred-1",
                   biometric_public_key := some "key-1" } : BioRecord) with
                biometric_public_key := some "key-A" })
        CeremonyOutcome.nullResult AssertOutcome.ok).action
      = (handleBiometricAuth
        (some { ({ biometric_credential_id := some "cred-1",
                   biometric_public_key := some "key-1" } : BioRecord) with
                biometric_public_key := some "key-B" })
        CeremonyOutcome.nullResult AssertOutcome.ok).action ∧
    (handleBiometricAuth
        (some { ({ biometric_credential_id := some "cred-1",
                   biometric_public_key := some "key-1" } : BioRecord) with
                biometric_public_key := some "key-A" })
        CeremonyOutcome.nullResult AssertOutcome.ok).error
      = (handleBiometricAuth
        (some { ({ biometric_credential_id := some "cred-1",
                   biometric_public_key := some "key-1" } : BioRecord) with
                biometric_public_key := some "key-B" })
        CeremonyOutcome.nullResult AssertOutcome.ok).error ∧
    (handleBiometricAuth
        (some { ({ biometric_credential_id := some "cred-1",
                   biometric_public_key := some "key-1" } : BioRecord) with
                biometric_public_key := some "key-A" })
        CeremonyOutcome.nullResult AssertOutcome.ok).successCalls
      = (handleBiometricAuth
        (some { ({ biometric_credential_id := some "cred-1",
                   biometric_public_key := some "key-1" } : BioRecord) with
                biometric_public_key := some "key-B" })
        CeremonyOutcome.nullResult AssertOutcome.ok).successCalls ∧
    (handleBiometricAuth
        (some { ({ biometric_credential_id := some "cred-1",
                   biometric_public_key := some "key-1" } : BioRecord) with
                biometric_public_key := some "key-A" })
        CeremonyOutcome.nullResult AssertOutcome.ok).db
      = some { ({ biometric_credential_id := some "cred-1",
                  biometric_public_key := some "key-1" } : BioRecord) with
               biometric_public_key := some "key-A" } :=
  claim_C10_public_key_unused
    { biometric_credential_id := some "cred-1", biometric_public_key := some "key-1" }
    (some "key-A") (some "key-B") "cred-1" rfl (by decide)
    CeremonyOutcome.nullResult AssertOutcome.ok

end CEOPinAuth
